/-
Verification of pyart.map.gates_to_grid (src/pyart/map/gates_to_grid.py).

The Python module orchestrates the mapping of radar gates onto a Cartesian
grid.  Floats are embedded as rationals, Python exceptions as an explicit
error type threaded through `Except`, numpy masked arrays as value/mask
pairs.  The Cython extension module `_gate_to_grid_map` (GateToGridMapper
and the RoI classes) is not part of the sources; its pieces are abstracted
as parameters or modelled from the spec, as noted on each definition.
-/
import Mathlib

set_option maxRecDepth 4096

/-- Python exception classes that the code under study can raise.
`nameError` models a reference to an unbound local variable,
`attributeError` a method lookup that fails on an object,
`indexError` an out-of-range sequence subscript,
`keyError` a missing dictionary key. -/
inductive PyErr where
  | valueError (msg : String)
  | keyError
  | nameError
  | attributeError
  | indexError
  deriving DecidableEq, Repr

/-- Sequencing of fallible Python statements: an earlier exception
propagates, otherwise execution continues with the produced value. -/
def tryE : Except PyErr α → (α → Except PyErr β) → Except PyErr β
  | .error e, _ => .error e
  | .ok a, f => f a

@[simp] theorem tryE_ok (a : α) (f : α → Except PyErr β) : tryE (.ok a) f = f a := rfl

@[simp] theorem tryE_error (e : PyErr) (f : α → Except PyErr β) :
    tryE (Except.error e) f = .error e := rfl

/-- One cell of a numpy masked array: a value together with a mask bit
(`mask = true` means the cell is missing data). -/
structure MaskedQ where
  val : ℚ
  mask : Bool
  deriving DecidableEq, Repr

/-- One radar field as stored in `radar.fields[name]['data']`: a masked
2-D (ray × gate) array, kept as parallel value and mask rows
(`np.ma.getdata` / `np.ma.getmaskarray`). -/
structure FieldArr where
  data : List (List ℚ)
  mask : List (List Bool)
  deriving DecidableEq, Repr

/-- The slice of a pyart Radar object that `map_gates_to_grid` reads.
`fields` is the field dictionary (association list keyed by field name);
`gateX`/`gateY` are the Cartesian gate locations `gate_x['data']` /
`gate_y['data']` (ray × gate); `gateLon`/`gateLat`/`gateAlt` the
geographic gate locations; scalar site coordinates stand for the
`latitude`/`longitude`/`altitude` entries (the fixed-platform case of the
source's float()/mean() fallback). -/
structure Radar where
  fields : List (String × FieldArr)
  gateX : List (List ℚ)
  gateY : List (List ℚ)
  gateLon : List (List ℚ)
  gateLat : List (List ℚ)
  gateAlt : List (List ℚ)
  latitude : ℚ
  longitude : ℚ
  altitude : ℚ
  nrays : ℕ
  ngates : ℕ
  deriving DecidableEq, Repr

/-- A constructed pyart GateFilter, reduced to the only attribute the
mapper reads: its `gate_excluded` boolean (ray × gate) array. -/
structure GateFilterM where
  gateExcluded : List (List Bool)
  deriving DecidableEq, Repr

/-- One entry of the per-radar gatefilter sequence after parsing:
a GateFilter instance, the literal `False` (include all gates) or the
literal `None` (build a moment-based filter). -/
inductive GFEntry where
  | filt (g : GateFilterM)
  | falseE
  | noneE
  deriving DecidableEq, Repr

/-- The `gatefilters` argument as the caller may pass it: a single
GateFilter, the default `False`, `None`, or a sequence of entries. -/
inductive GFArg where
  | filt (g : GateFilterM)
  | falseV
  | noneV
  | many (gs : List GFEntry)
  deriving DecidableEq, Repr

/-- Modelled from the spec: the radius-of-influence objects constructed by
`_parse_roi_func` live in the Cython module `_gate_to_grid_map`, which is
not among the sources; only their constructors and constructor arguments
are modelled here, as a closed set of tagged variants. -/
inductive RoIFunctionModel where
  | constantRoI (c : ℚ)
  | distRoI (zFactor xyFactor minRadius : ℚ) (offsets : List (ℚ × ℚ × ℚ))
  | distBeamRoI (hFactor nb bsp minRadius : ℚ) (offsets : List (ℚ × ℚ × ℚ))
  | maxSpaceRoI (maxAzSpacing : ℚ)
  deriving DecidableEq, Repr

/-- The `roi_func` argument: either one of the recognized mode names as a
string, or an already-constructed RoIFunction instance. -/
inductive RoiArg where
  | str (s : String)
  | obj (f : RoIFunctionModel)
  deriving DecidableEq, Repr

/-- `np.diff` on a one-dimensional array: consecutive differences. -/
def npDiff : List ℚ → List ℚ
  | [] => []
  | [_] => []
  | x :: y :: rest => (y - x) :: npDiff (y :: rest)

/-- Message of the ValueError numpy raises when reducing an empty array. -/
def zeroSizeMsg : String :=
  "zero-size array to reduction operation maximum which has no identity"

/-- `np.max` on a one-dimensional array: raises ValueError when the array
is empty, otherwise returns the maximum. -/
def npMax : List ℚ → Except PyErr ℚ
  | [] => .error (.valueError zeroSizeMsg)
  | x :: xs => .ok (xs.foldl max x)

/-- The column `arr[:, -1]`: last entry of each row. -/
def lastCol (rows : List (List ℚ)) : List ℚ :=
  rows.map (fun row => row.getLastD 0)

/-- Reading a Python local variable: a NameError when no assignment has
executed on the path reaching the read, the bound value otherwise. -/
def readVar : Option ℚ → Except PyErr ℚ
  | none => .error .nameError
  | some q => .ok q

/-- Uppercasing of one character, for the ASCII names the module
compares against. -/
def upperChar (c : Char) : Char :=
  if 97 ≤ c.toNat ∧ c.toNat ≤ 122 then Char.ofNat (c.toNat - 32) else c

/-- Python's `str.upper()` on the ASCII strings in play, applied
character by character. -/
def pyUpper (s : String) : String := ⟨s.data.map upperChar⟩

/-- Translation of `_detemine_cy_weighting_func` (source name kept,
including its typo).  Resolves the weighting-function name, case
insensitively, to the numeric tag dispatched on by the Cython kernel;
the boolean records whether the legacy-Barnes DeprecationWarning was
emitted.  Unknown names raise ValueError. -/
def detemine_cy_weighting_func (weighting_function : String) :
    Except PyErr (ℕ × Bool) :=
  if pyUpper weighting_function = "BARNES2" then .ok (3, false)
  else if pyUpper weighting_function = "NEAREST" then .ok (2, false)
  else if pyUpper weighting_function = "CRESSMAN" then .ok (1, false)
  else if pyUpper weighting_function = "BARNES" then .ok (0, true)
  else .error (.valueError "unknown weighting_function")

/-- Translation of `_find_projparams`, abstracted to the data the rest of
the pipeline consumes: the grid-origin latitude/longitude placed into the
projection parameters (`lat_0`, `lon_0`), defaulting to the first radar's
site when no explicit origin is given (IndexError on an empty radar
sequence). -/
def find_projparams (grid_origin : Option (ℚ × ℚ)) (radars : List Radar) :
    Except PyErr (ℚ × ℚ) :=
  match grid_origin with
  | some o => .ok o
  | none =>
    match radars with
    | [] => .error .indexError
    | r :: _ => .ok (r.latitude, r.longitude)

/-- Translation of `_parse_gatefilters`: a single GateFilter is wrapped in
a one-element tuple, `False` and `None` are broadcast over the radars, and
a length mismatch with the radar sequence raises ValueError. -/
def parse_gatefilters (gatefilters : GFArg) (radars : List Radar) :
    Except PyErr (List GFEntry) :=
  match gatefilters with
  | .filt g =>
    if 1 = radars.length then .ok [.filt g]
    else .error (.valueError "Length of gatefilters must match length of radars")
  | .falseV => .ok (List.replicate radars.length .falseE)
  | .noneV => .ok (List.replicate radars.length .noneE)
  | .many gs =>
    if gs.length = radars.length then .ok gs
    else .error (.valueError "Length of gatefilters must match length of radars")

/-- Names of the fields present on a radar (its field-dictionary keys). -/
def fieldNames (r : Radar) : List String := r.fields.map Prod.fst

/-- The set intersection `set(radars[0].fields) ∩ ...` over the remaining
radars, computed on key lists. -/
def intersectFields (r : Radar) (rs : List Radar) : List String :=
  rs.foldl (fun acc radar => acc.filter (fun f => f ∈ fieldNames radar)) (fieldNames r)

/-- Translation of `_determine_fields`: an explicit field list is passed
through unchanged; otherwise the fields mapped are the intersection of the
field names present across all supplied radars (IndexError on an empty
radar sequence). -/
def determine_fields (fields : Option (List String)) (radars : List Radar) :
    Except PyErr (List String) :=
  match fields with
  | some fs => .ok fs
  | none =>
    match radars with
    | [] => .error .indexError
    | r :: rs => .ok (intersectFields r rs)

/-- Translation of `_find_offsets`: per-radar (z, y, x) displacement from
the grid origin; the horizontal displacement comes from the supplied
coordinate projector (`geographic_to_cartesian`, an external
collaborator passed in as `geo2cart lon lat = (x, y)`). -/
def find_offsets (geo2cart : ℚ → ℚ → ℚ × ℚ) (radars : List Radar)
    (grid_origin_alt : ℚ) : List (ℚ × ℚ × ℚ) :=
  radars.map (fun radar =>
    let xy := geo2cart radar.longitude radar.latitude
    (radar.altitude - grid_origin_alt, xy.2, xy.1))

/-- Translation of `_find_grid_params`: per-axis start and step from the
shape and limits; an axis of size one gets step 0, otherwise step is
(stop − start)/(size − 1).  No error path exists in the source. -/
def find_grid_params (grid_shape : ℕ × ℕ × ℕ)
    (grid_limits : (ℚ × ℚ) × (ℚ × ℚ) × (ℚ × ℚ)) :
    (ℚ × ℚ × ℚ) × (ℚ × ℚ × ℚ) :=
  let nz := grid_shape.1; let ny := grid_shape.2.1; let nx := grid_shape.2.2
  let z_start := grid_limits.1.1; let z_stop := grid_limits.1.2
  let y_start := grid_limits.2.1.1; let y_stop := grid_limits.2.1.2
  let x_start := grid_limits.2.2.1; let x_stop := grid_limits.2.2.2
  let z_step : ℚ := if nz = 1 then 0 else (z_stop - z_start) / ((nz : ℚ) - 1)
  let y_step : ℚ := if ny = 1 then 0 else (y_stop - y_start) / ((ny : ℚ) - 1)
  let x_step : ℚ := if nx = 1 then 0 else (x_stop - x_start) / ((nx : ℚ) - 1)
  ((z_start, y_start, x_start), (z_step, y_step, x_step))

/-- Translation of `_parse_roi_func` with the missing comma of its
parameter list (`offsets max_az_spacing`) repaired to the only possible
reading; an already-constructed RoIFunction is passed through, recognized
mode names construct the corresponding RoI object, and any other string
raises ValueError. -/
def parse_roi_func (roi_func : RoiArg) (constant_roi z_factor xy_factor
    min_radius h_factor nb bsp : ℚ) (offsets : List (ℚ × ℚ × ℚ))
    (max_az_spacing : ℚ) : Except PyErr RoIFunctionModel :=
  match roi_func with
  | .obj f => .ok f
  | .str s =>
    if s = "constant" then .ok (.constantRoI constant_roi)
    else if s = "dist" then .ok (.distRoI z_factor xy_factor min_radius offsets)
    else if s = "dist_beam" then
      .ok (.distBeamRoI h_factor nb bsp min_radius offsets)
    else if s = "max_space" then .ok (.maxSpaceRoI max_az_spacing)
    else .error (.valueError ("unknown roi_func: " ++ s))

/-- The azimuthal spacing array of one radar, from lines 126-128 of the
source: Euclidean distances between the last-gate endpoints of
consecutive rays.  `sqrtQ` stands for `np.sqrt`, kept abstract over the
rationals. -/
def spacingList (sqrtQ : ℚ → ℚ) (radar : Radar) : List ℚ :=
  ((npDiff (lastCol radar.gateX)).zip (npDiff (lastCol radar.gateY))).map
    (fun p => sqrtQ (p.1 ^ 2 + p.2 ^ 2))

/-- Translation of the `roi_func == 'max_space'` block (source lines
123-130).  `max_space_radars = np.empty(len(radars))` builds an ndarray.
On the loop's first iteration the spacing array is computed (line 128, a
separate statement that succeeds even when `np.diff` is empty); the next
statement `max_space_radars.append(np.max(spacing))` then resolves the
attribute `max_space_radars.append` before its argument is evaluated,
and that lookup raises AttributeError because numpy ndarrays have no
`append` method — so every nonempty radar sequence raises
AttributeError, whatever its ray counts.  With no radars the loop is
skipped and `np.max` reduces the empty buffer, raising ValueError. -/
def maxSpaceBlock (sqrtQ : ℚ → ℚ) (radars : List Radar) : Except PyErr ℚ :=
  match radars with
  | [] => npMax []
  | r :: _ =>
    let _spacing := spacingList sqrtQ r
    .error .attributeError

/-- Translation of the field-copy loop of `map_gates_to_grid` (source
lines 146-154): for each requested field, `radar.fields[field]['data']`
is looked up and its data and mask copied into the per-radar buffers.  A
field absent from the radar's field dictionary raises KeyError; the
source contains no guard and emits no warning. -/
def copyFieldData (radar : Radar) : List String → Except PyErr (List FieldArr)
  | [] => .ok []
  | f :: fs =>
    match (radar.fields.lookup f) with
    | none => .error .keyError
    | some fd => tryE (copyFieldData radar fs) (fun rest => .ok (fd :: rest))

/-- Resolution of one gatefilter entry inside the radar loop (source
lines 157-161): `False` becomes `GateFilter(radar)` (no gate excluded),
`None` becomes `moment_based_gate_filter(radar, **kwargs)` — an external
collaborator supplied as the `momentFilter` parameter — and an explicit
filter contributes its own `gate_excluded` array. -/
def resolveGatefilter (momentFilter : Radar → List (List Bool)) (radar : Radar) :
    GFEntry → List (List Bool)
  | .filt g => g.gateExcluded
  | .falseE => List.replicate radar.nrays (List.replicate radar.ngates false)
  | .noneE => momentFilter radar

/-- One cell of the finalization `msum[..., i] / mweight[..., i]` (source
lines 182-185): `np.ma.masked_equal(grid_wsum, 0)` masks exactly the
zero-weight cells, the same mask is placed on `grid_sum`, and the masked
division produces a masked (missing) cell wherever the operands are
masked — the quotient is formed only where the weight mask is clear. -/
def finalizeCell (s w : ℚ) : MaskedQ :=
  if w = 0 then { val := 0, mask := true } else { val := s / w, mask := false }

/-- Finalization of one field's accumulation buffers, cell by cell. -/
def finalize : List ℚ → List ℚ → List MaskedQ
  | s :: ss, w :: ws => finalizeCell s w :: finalize ss ws
  | _, _ => []

/-- The per-radar data handed to the Cython
`GateToGridMapper.map_gates_to_grid` call (source lines 175-179). -/
structure PreparedRadar where
  ngates : ℕ
  nrays : ℕ
  gateZ : List (List ℚ)
  gateY : List (List ℚ)
  gateX : List (List ℚ)
  fieldData : List FieldArr
  excluded : List (List Bool)
  deriving Repr

/-- Accumulation state: per-field `grid_sum` and `grid_wsum` buffers over
the flattened grid cells. -/
def AccState : Type := List (List ℚ) × List (List ℚ)

/-- Modelled from the spec: the Cython extension `_gate_to_grid_map` is
not among the sources, so its `GateToGridMapper` is abstracted to the two
capabilities the orchestrator uses — one accumulation step per radar
(`map_gates_to_grid` on the mapper, adding weight×value and weight into
the running sums) and the per-cell radius diagnostic
(`find_roi_for_grid`). -/
structure CyKernel where
  step : ℚ → RoIFunctionModel → ℕ → ℚ → AccState → PreparedRadar → AccState
  roiForGrid : (ℕ × ℕ × ℕ) → (ℚ × ℚ × ℚ) → (ℚ × ℚ × ℚ) → RoIFunctionModel →
    List ℚ

/-- The first argument of `map_gates_to_grid`: a bare Radar object or a
sequence of them. -/
inductive RadarsArg where
  | one (r : Radar)
  | many (rs : List Radar)

/-- The remaining keyword arguments of `map_gates_to_grid`, with the
source's defaults recorded in `defaultArgs` below. -/
structure MapArgs where
  grid_shape : ℕ × ℕ × ℕ
  grid_limits : (ℚ × ℚ) × (ℚ × ℚ) × (ℚ × ℚ)
  grid_origin : Option (ℚ × ℚ)
  grid_origin_alt : Option ℚ
  fields : Option (List String)
  gatefilters : GFArg
  map_roi : Bool
  weighting_function : String
  toa : ℚ
  roi_func : RoiArg
  constant_roi : ℚ
  z_factor : ℚ
  xy_factor : ℚ
  min_radius : ℚ
  h_factor : ℚ
  nb : ℚ
  bsp : ℚ

/-- The defaults of the source's signature (lines 34-40): Barnes
weighting, 17000 m ceiling, `dist_beam` radius of influence, 500 m
constant radius, factors 0.05 / 0.02, 500 m minimum radius, h factor 1,
virtual beam width 1.5, spacing 1. -/
def defaultArgs (grid_shape : ℕ × ℕ × ℕ)
    (grid_limits : (ℚ × ℚ) × (ℚ × ℚ) × (ℚ × ℚ)) : MapArgs where
  grid_shape := grid_shape
  grid_limits := grid_limits
  grid_origin := none
  grid_origin_alt := none
  fields := none
  gatefilters := .falseV
  map_roi := true
  weighting_function := "Barnes"
  toa := 17000
  roi_func := .str "dist_beam"
  constant_roi := 500
  z_factor := 1 / 20
  xy_factor := 1 / 50
  min_radius := 500
  h_factor := 1
  nb := 3 / 2
  bsp := 1

/-- The mapped grids returned to the caller: one masked flattened grid
per field, plus the optional radius-of-influence diagnostic grid. -/
structure MapResult where
  grids : List (String × List MaskedQ)
  roi : Option (List ℚ)

/-- Elementwise difference of two rectangular arrays, for
`gate_z = gate_altitude - grid_origin_alt`. -/
def subScalar (rows : List (List ℚ)) (c : ℚ) : List (List ℚ) :=
  rows.map (fun row => row.map (fun v => v - c))

/-- Elementwise application of the coordinate projector to geographic
gate locations (`geographic_to_cartesian` over 2-D arrays). -/
def projectGates (geo2cart : ℚ → ℚ → ℚ × ℚ) (lon lat : List (List ℚ)) :
    List (List ℚ) × List (List ℚ) :=
  (((lon.zip lat).map (fun p => (p.1.zip p.2).map
      (fun q => (geo2cart q.1 q.2).1))),
   ((lon.zip lat).map (fun p => (p.1.zip p.2).map
      (fun q => (geo2cart q.1 q.2).2))))

/-- The body of the radar loop before the mapper call (source lines
144-172): copy fields and masks, resolve the gatefilter, compute gate
locations relative to the grid origin. -/
def prepareRadar (geo2cart : ℚ → ℚ → ℚ × ℚ)
    (momentFilter : Radar → List (List Bool)) (skip_transform : Bool)
    (grid_origin_alt : ℚ) (fields : List String)
    (rg : Radar × GFEntry) : Except PyErr PreparedRadar :=
  tryE (copyFieldData rg.1 fields) (fun fieldData =>
    let excluded := resolveGatefilter momentFilter rg.1 rg.2
    let xy : List (List ℚ) × List (List ℚ) :=
      if skip_transform then (rg.1.gateX, rg.1.gateY)
      else projectGates geo2cart rg.1.gateLon rg.1.gateLat
    .ok { ngates := rg.1.ngates, nrays := rg.1.nrays,
          gateZ := subScalar rg.1.gateAlt grid_origin_alt,
          gateY := xy.2, gateX := xy.1,
          fieldData := fieldData, excluded := excluded })

/-- `mapM` over `tryE`: the radar loop propagates the first exception. -/
def mapME (f : α → Except PyErr β) : List α → Except PyErr (List β)
  | [] => .ok []
  | a :: as' => tryE (f a) (fun b => tryE (mapME f as') (fun bs => .ok (b :: bs)))

/-- Translation of `map_gates_to_grid` (source lines 34-190).  External
collaborators are parameters: `geo2cart` is
`pyart.core.transforms.geographic_to_cartesian`, `sqrtQ` is `np.sqrt`,
`momentFilter` is `pyart.filters.moment_based_gate_filter`, and `kern`
is the Cython GateToGridMapper.  A bare Radar first argument is wrapped
into a one-element tuple.  The `max_space` spacing block runs only for
`roi_func == 'max_space'`; on every other path the local
`max_az_spacing` is never assigned, so the reference to it in the
`_parse_roi_func` call (source line 134) raises NameError. -/
def map_gates_to_grid (geo2cart : ℚ → ℚ → ℚ × ℚ) (sqrtQ : ℚ → ℚ)
    (momentFilter : Radar → List (List Bool)) (kern : CyKernel)
    (radarsArg : RadarsArg) (a : MapArgs) : Except PyErr MapResult :=
  let radars : List Radar :=
    match radarsArg with
    | .one r => [r]
    | .many rs => rs
  let skip_transform : Bool :=
    radars.length = 1 && a.grid_origin_alt.isNone && a.grid_origin.isNone
  tryE (match a.grid_origin_alt with
        | some alt => .ok alt
        | none =>
          match radars with
          | [] => .error .indexError
          | r :: _ => .ok r.altitude) (fun grid_origin_alt =>
  tryE (parse_gatefilters a.gatefilters radars) (fun gatefilters =>
  tryE (detemine_cy_weighting_func a.weighting_function) (fun cyw =>
  tryE (find_projparams a.grid_origin radars) (fun _projparams =>
  tryE (determine_fields a.fields radars) (fun fields =>
  let gp := find_grid_params a.grid_shape a.grid_limits
  let offsets := find_offsets geo2cart radars grid_origin_alt
  tryE (if a.roi_func = .str "max_space"
        then tryE (maxSpaceBlock sqrtQ radars) (fun m => .ok (some m))
        else .ok (none : Option ℚ)) (fun max_az_spacing =>
  tryE (readVar max_az_spacing) (fun max_az =>
  tryE (parse_roi_func a.roi_func a.constant_roi a.z_factor a.xy_factor
        a.min_radius a.h_factor a.nb a.bsp offsets max_az) (fun roiF =>
  let nfields := fields.length
  let ncells := a.grid_shape.1 * a.grid_shape.2.1 * a.grid_shape.2.2
  let init : AccState :=
    (List.replicate nfields (List.replicate ncells 0),
     List.replicate nfields (List.replicate ncells 0))
  tryE (mapME (prepareRadar geo2cart momentFilter skip_transform
               grid_origin_alt fields) (radars.zip gatefilters)) (fun prepared =>
  let acc := prepared.foldl (kern.step a.toa roiF cyw.1 max_az) init
  let grids := (fields.enum).map (fun fi =>
    (fi.2, finalize (acc.1.getD fi.1 []) (acc.2.getD fi.1 [])))
  let roi := if a.map_roi
    then some (kern.roiForGrid a.grid_shape gp.1 gp.2 roiF)
    else none
  .ok { grids := grids, roi := roi })))))))))

/-- A two-ray, two-gate radar carrying one reflectivity field, used as a
concrete input for evaluating the model. -/
def testRadar : Radar where
  fields := [("reflectivity",
    { data := [[1, 2], [3, 4]], mask := [[false, false], [false, false]] })]
  gateX := [[0, 100], [0, 90]]
  gateY := [[0, 0], [0, 40]]
  gateLon := [[0, 0], [0, 0]]
  gateLat := [[0, 0], [0, 0]]
  gateAlt := [[300, 310], [300, 310]]
  latitude := 36
  longitude := -97
  altitude := 300
  nrays := 2
  ngates := 2

/-- A single-ray radar: only one azimuthal gate exists, so no azimuthal
spacing can be computed from it. -/
def oneRayRadar : Radar where
  fields := [("reflectivity",
    { data := [[1, 2]], mask := [[false, false]] })]
  gateX := [[0, 100]]
  gateY := [[0, 0]]
  gateLon := [[0, 0]]
  gateLat := [[0, 0]]
  gateAlt := [[300, 310]]
  latitude := 36
  longitude := -97
  altitude := 300
  nrays := 1
  ngates := 2

/-- A radar with two rays whose last-gate endpoints coincide: two
azimuthal gates exist but they are not distinct, so the maximum azimuthal
spacing computed from them would be zero. -/
def coincidentRadar : Radar where
  fields := [("reflectivity",
    { data := [[1, 2], [3, 4]], mask := [[false, false], [false, false]] })]
  gateX := [[0, 100], [0, 100]]
  gateY := [[0, 0], [0, 0]]
  gateLon := [[0, 0], [0, 0]]
  gateLat := [[0, 0], [0, 0]]
  gateAlt := [[300, 310], [300, 310]]
  latitude := 36
  longitude := -97
  altitude := 300
  nrays := 2
  ngates := 2

/-- A trivial instantiation of the abstract Cython kernel, used when a
concrete evaluation of the orchestrator is needed. -/
def kern0 : CyKernel where
  step := fun _ _ _ _ s _ => s
  roiForGrid := fun _ _ _ _ => []

/-- A trivial coordinate projector for concrete evaluations. -/
def geo0 : ℚ → ℚ → ℚ × ℚ := fun _ _ => (0, 0)

/-- A trivial moment-based filter for concrete evaluations. -/
def mf0 : Radar → List (List Bool) := fun _ => []

theorem npDiff_nil_of_short (xs : List ℚ) (h : xs.length ≤ 1) : npDiff xs = [] := by
  cases xs with
  | nil => rfl
  | cons a t =>
    cases t with
    | nil => rfl
    | cons b t2 => simp at h

theorem spacingList_nil (sqrtQ : ℚ → ℚ) (r : Radar)
    (h : (lastCol r.gateX).length ≤ 1) : spacingList sqrtQ r = [] := by
  unfold spacingList
  rw [npDiff_nil_of_short _ h]
  rfl

theorem mem_foldl_filter (f : String) (rs : List Radar) (acc : List String) :
    f ∈ rs.foldl (fun acc radar => acc.filter (fun g => g ∈ fieldNames radar)) acc ↔
      f ∈ acc ∧ ∀ r' ∈ rs, f ∈ fieldNames r' := by
  induction rs generalizing acc with
  | nil => simp
  | cons r' rs' ih =>
    simp only [List.foldl_cons, ih, List.mem_filter, List.forall_mem_cons,
      decide_eq_true_eq]
    tauto

/-- Claim C1: for every field and every grid cell, the finalized output
equals grid_sum / grid_wsum at cells where grid_wsum > 0, and every cell
with grid_wsum == 0 is marked as missing data, with the quotient formed
only where the zero-weight mask is clear. -/
theorem claim_C1_finalizer (sums wsums : List ℚ) (i : ℕ) (s w : ℚ)
    (hs : sums[i]? = some s) (hw : wsums[i]? = some w) (hnn : 0 ≤ w) :
    ∃ out, (finalize sums wsums)[i]? = some out ∧
      (0 < w → out = { val := s / w, mask := false }) ∧
      (out.mask = false ↔ 0 < w) ∧
      (w = 0 → out.mask = true) := by
  induction sums generalizing wsums i with
  | nil => simp at hs
  | cons a as ih =>
    cases wsums with
    | nil => simp at hw
    | cons b bs =>
      cases i with
      | zero =>
        simp only [List.getElem?_cons_zero, Option.some_inj] at hs hw
        subst hs; subst hw
        rcases eq_or_lt_of_le hnn with hb0 | hbpos
        · refine ⟨finalizeCell a b, by simp [finalize], ?_, ?_, ?_⟩ <;>
            simp [finalizeCell, ← hb0]
        · refine ⟨finalizeCell a b, by simp [finalize], ?_, ?_, ?_⟩ <;>
            simp [finalizeCell, ne_of_gt hbpos, hbpos]
      | succ n =>
        simp only [List.getElem?_cons_succ] at hs hw
        simpa only [finalize, List.getElem?_cons_succ] using ih bs n hs hw

theorem claim_C1_finalizer_witness :
    ∃ out, (finalize [3] [2])[0]? = some out ∧
      ((0 : ℚ) < 2 → out = { val := 3 / 2, mask := false }) ∧
      (out.mask = false ↔ (0 : ℚ) < 2) ∧
      ((2 : ℚ) = 0 → out.mask = true) :=
  claim_C1_finalizer [3] [2] 0 3 2 rfl rfl (by norm_num)

/-- Claim C2: the `max_space` spacing collection never produces a radius.
The buffer `max_space_radars = np.empty(len(radars))` is a numpy ndarray
with no `append` method, so the collection loop raises AttributeError at
the attribute lookup on its first iteration; with no radars, reducing
the empty buffer raises ValueError.  Evaluated at the concrete two-ray
radar, and in general: the block raises on every input. -/
theorem claim_C2_max_space_never_collects :
    maxSpaceBlock id [testRadar] = .error .attributeError ∧
    ∀ (sqrtQ : ℚ → ℚ) (radars : List Radar),
      ∃ e, maxSpaceBlock sqrtQ radars = .error e := by
  constructor
  · rfl
  · intro sqrtQ radars
    cases radars with
    | nil => exact ⟨_, rfl⟩
    | cons r rs => exact ⟨.attributeError, rfl⟩

/-- Claim C3: each of the three configuration faults — an unknown
weighting-function name, an unknown influence-radius-mode name, and a
gatefilter sequence whose length differs from the radar count — raises a
ValueError surfaced to the caller instead of being silently defaulted. -/
theorem claim_C3_configuration_errors :
    (∀ w : String,
      pyUpper w ≠ "BARNES2" → pyUpper w ≠ "NEAREST" →
      pyUpper w ≠ "CRESSMAN" → pyUpper w ≠ "BARNES" →
      detemine_cy_weighting_func w =
        .error (.valueError "unknown weighting_function")) ∧
    (∀ (s : String) (cr zf xyf mr hf nb bsp : ℚ)
      (offsets : List (ℚ × ℚ × ℚ)) (maxAz : ℚ),
      s ≠ "constant" → s ≠ "dist" → s ≠ "dist_beam" → s ≠ "max_space" →
      parse_roi_func (.str s) cr zf xyf mr hf nb bsp offsets maxAz =
        .error (.valueError ("unknown roi_func: " ++ s))) ∧
    (∀ (gs : List GFEntry) (radars : List Radar),
      gs.length ≠ radars.length →
      parse_gatefilters (.many gs) radars =
        .error (.valueError "Length of gatefilters must match length of radars")) := by
  refine ⟨?_, ?_, ?_⟩
  · intro w h1 h2 h3 h4
    simp [detemine_cy_weighting_func, h1, h2, h3, h4]
  · intro s cr zf xyf mr hf nb bsp offsets maxAz h1 h2 h3 h4
    simp [parse_roi_func, h1, h2, h3, h4]
  · intro gs radars h
    simp [parse_gatefilters, h]

theorem claim_C3_configuration_errors_witness :
    detemine_cy_weighting_func "trilinear" =
      .error (.valueError "unknown weighting_function") ∧
    parse_roi_func (.str "cone") 500 1 1 500 1 1 1 [] 0 =
      .error (.valueError ("unknown roi_func: " ++ "cone")) ∧
    parse_gatefilters (.many []) [testRadar] =
      .error (.valueError "Length of gatefilters must match length of radars") :=
  ⟨claim_C3_configuration_errors.1 "trilinear"
      (by decide) (by decide) (by decide) (by decide),
   claim_C3_configuration_errors.2.1 "cone" 500 1 1 500 1 1 1 [] 0
      (by decide) (by decide) (by decide) (by decide),
   claim_C3_configuration_errors.2.2 [] [testRadar] (by decide)⟩

/-- Claim C4 (refuted by the code): no configuration-error check for
insufficient azimuthal gates exists.  A `max_space` mapping call on a
single one-ray radar (one azimuth gate) and on a radar with two
coincident rays (two gates, not distinct) both fail with the
unconditional AttributeError of the spacing-collection defect — the
attribute `max_space_radars.append` is resolved, and raises, before
`np.max(spacing)` is ever evaluated — not with a configuration error
about the undefined MaxSpacing radius. -/
theorem claim_C4_no_configuration_error :
    map_gates_to_grid geo0 id mf0 kern0 (.many [oneRayRadar])
      { defaultArgs (1, 1, 1) ((0, 0), (0, 0), (0, 0)) with
          roi_func := .str "max_space" } = .error .attributeError ∧
    map_gates_to_grid geo0 id mf0 kern0 (.many [coincidentRadar])
      { defaultArgs (1, 1, 1) ((0, 0), (0, 0), (0, 0)) with
          roi_func := .str "max_space" } = .error .attributeError :=
  ⟨rfl, rfl⟩

/-- Claim C5 counterexample: a field requested explicitly but absent from
the radar makes the field-copy step raise KeyError — the contribution is
not omitted with a warning; the error is fatal. -/
theorem claim_C5_counterexample_keyerror :
    copyFieldData testRadar ["velocity"] = .error .keyError := rfl

/-- Claim C5 (amended): a requested field missing from a sensor raises a
KeyError that propagates to the caller; no warning is emitted and the
remaining fields are not mapped. -/
theorem claim_C5_missing_field_raises (radar : Radar) (fields : List String)
    (f : String) (hf : f ∈ fields) (hmiss : radar.fields.lookup f = none) :
    copyFieldData radar fields = .error .keyError := by
  induction fields with
  | nil => cases hf
  | cons g gs ih =>
    rcases List.mem_cons.mp hf with rfl | hf'
    · simp [copyFieldData, hmiss]
    · cases h : radar.fields.lookup g with
      | none => simp [copyFieldData, h]
      | some fd => simp [copyFieldData, h, ih hf']

theorem claim_C5_missing_field_raises_witness :
    copyFieldData testRadar ["reflectivity", "velocity"] = .error .keyError :=
  claim_C5_missing_field_raises testRadar ["reflectivity", "velocity"]
    "velocity" (by decide) (by decide)

/-- Claim C6 (refuted by the code): for the recognized string modes other
than `max_space` — `constant`, `dist` and the default `dist_beam` — the
local `max_az_spacing` is never assigned, so the reference to it when
calling `_parse_roi_func` raises NameError; evaluated here at a concrete
call for each of the three modes.  (The parameter list of
`_parse_roi_func` itself is missing a comma between `offsets` and
`max_az_spacing` in the source, which is a SyntaxError on import.) -/
theorem claim_C6_unbound_max_az_spacing :
    map_gates_to_grid geo0 id mf0 kern0 (.one testRadar)
      { defaultArgs (1, 1, 1) ((0, 0), (0, 0), (0, 0)) with
          roi_func := .str "constant" } = .error .nameError ∧
    map_gates_to_grid geo0 id mf0 kern0 (.one testRadar)
      { defaultArgs (1, 1, 1) ((0, 0), (0, 0), (0, 0)) with
          roi_func := .str "dist" } = .error .nameError ∧
    map_gates_to_grid geo0 id mf0 kern0 (.one testRadar)
      (defaultArgs (1, 1, 1) ((0, 0), (0, 0), (0, 0))) = .error .nameError :=
  ⟨rfl, rfl, rfl⟩

/-- Claim C7: the weighting-function name is resolved, case-insensitively
and before accumulation begins, to the fixed numeric tag the Cython loop
dispatches on — Barnes to 0, Cressman to 1, Nearest to 2, Barnes2 to 3 —
and only the legacy Barnes selection sets the deprecation-warning flag. -/
theorem claim_C7_weighting_tag (w : String) :
    (pyUpper w = "BARNES" → detemine_cy_weighting_func w = .ok (0, true)) ∧
    (pyUpper w = "CRESSMAN" → detemine_cy_weighting_func w = .ok (1, false)) ∧
    (pyUpper w = "NEAREST" → detemine_cy_weighting_func w = .ok (2, false)) ∧
    (pyUpper w = "BARNES2" → detemine_cy_weighting_func w = .ok (3, false)) := by
  refine ⟨?_, ?_, ?_, ?_⟩ <;> intro h <;>
    simp [detemine_cy_weighting_func, h]

theorem claim_C7_weighting_tag_witness :
    detemine_cy_weighting_func "Barnes" = .ok (0, true) ∧
    detemine_cy_weighting_func "cressman" = .ok (1, false) ∧
    detemine_cy_weighting_func "NEAREST" = .ok (2, false) ∧
    detemine_cy_weighting_func "Barnes2" = .ok (3, false) :=
  ⟨(claim_C7_weighting_tag "Barnes").1 (by decide),
   (claim_C7_weighting_tag "cressman").2.1 (by decide),
   (claim_C7_weighting_tag "NEAREST").2.2.1 (by decide),
   (claim_C7_weighting_tag "Barnes2").2.2.2 (by decide)⟩

/-- Claim C8: the conversion from shape and limits to per-axis start and
step yields step 0 on each axis of size 1 and (stop − start)/(size − 1)
on each axis of size above 1, with the starts passed through; the
single-cell case follows the same non-error path as every other size. -/
theorem claim_C8_grid_steps (nz ny nx : ℕ) (zs zp ys yp xs xp : ℚ) :
    (find_grid_params (nz, ny, nx) ((zs, zp), (ys, yp), (xs, xp))).1 =
      (zs, ys, xs) ∧
    (nz = 1 →
      (find_grid_params (nz, ny, nx) ((zs, zp), (ys, yp), (xs, xp))).2.1 = 0) ∧
    (1 < nz →
      (find_grid_params (nz, ny, nx) ((zs, zp), (ys, yp), (xs, xp))).2.1 =
        (zp - zs) / ((nz : ℚ) - 1)) ∧
    (ny = 1 →
      (find_grid_params (nz, ny, nx) ((zs, zp), (ys, yp), (xs, xp))).2.2.1 = 0) ∧
    (1 < ny →
      (find_grid_params (nz, ny, nx) ((zs, zp), (ys, yp), (xs, xp))).2.2.1 =
        (yp - ys) / ((ny : ℚ) - 1)) ∧
    (nx = 1 →
      (find_grid_params (nz, ny, nx) ((zs, zp), (ys, yp), (xs, xp))).2.2.2 = 0) ∧
    (1 < nx →
      (find_grid_params (nz, ny, nx) ((zs, zp), (ys, yp), (xs, xp))).2.2.2 =
        (xp - xs) / ((nx : ℚ) - 1)) := by
  refine ⟨by simp [find_grid_params], ?_, ?_, ?_, ?_, ?_, ?_⟩ <;> intro h
  · simp [find_grid_params, h]
  · have hne : nz ≠ 1 := by omega
    simp [find_grid_params, hne]
  · simp [find_grid_params, h]
  · have hne : ny ≠ 1 := by omega
    simp [find_grid_params, hne]
  · simp [find_grid_params, h]
  · have hne : nx ≠ 1 := by omega
    simp [find_grid_params, hne]

theorem claim_C8_grid_steps_witness :
    (find_grid_params (1, 3, 1) ((0, 10), (0, 10), (5, 9))).2.1 = 0 ∧
    (find_grid_params (1, 3, 1) ((0, 10), (0, 10), (5, 9))).2.2.1 = 5 := by
  constructor
  · exact (claim_C8_grid_steps 1 3 1 0 10 0 10 5 9).2.1 rfl
  · have := (claim_C8_grid_steps 1 3 1 0 10 0 10 5 9).2.2.2.2.1 (by norm_num)
    rw [this]; norm_num

/-- Claim C9: when no explicit field list is given, the set of fields
mapped is exactly the intersection of the field names present across all
supplied radars. -/
theorem claim_C9_default_field_intersection (r : Radar) (rs : List Radar)
    (f : String) :
    determine_fields none (r :: rs) = .ok (intersectFields r rs) ∧
    (f ∈ intersectFields r rs ↔ ∀ r' ∈ r :: rs, f ∈ fieldNames r') := by
  refine ⟨rfl, ?_⟩
  rw [intersectFields, mem_foldl_filter]
  simp [List.forall_mem_cons]

/-- Claim C10: calling the mapper with a bare Radar object as the first
argument is identical to calling it with the one-element tuple holding
that radar, for every choice of the remaining arguments and external
collaborators. -/
theorem claim_C10_radar_tuple_equiv (geo2cart : ℚ → ℚ → ℚ × ℚ)
    (sqrtQ : ℚ → ℚ) (momentFilter : Radar → List (List Bool)) (kern : CyKernel)
    (r : Radar) (a : MapArgs) :
    map_gates_to_grid geo2cart sqrtQ momentFilter kern (.one r) a =
      map_gates_to_grid geo2cart sqrtQ momentFilter kern (.many [r]) a := rfl
